import Mathlib

/-!
Shallow embedding of the WhatsApp bot session manager (src/server.js).

The registry `activeSessions` (a JS Map from sessionId to socket) is modelled
as an association list; the heartbeat intervals as a list of live timers each
bound to a sessionId; HTTP and filesystem effects as explicit request lists
and outcome parameters. Every definition mirrors a specific region of
src/server.js, cited by line numbers.
-/

/-- JS `s.split (":") [0]`: the prefix of `s` before the first colon
(the whole string when no colon occurs). Used at server.js line 74. -/
def splitColonFirst (s : String) : String :=
  String.mk (s.data.takeWhile (fun c => c ≠ ':'))

/-- The `sock.user` object read in the `open` branch (lines 72-74). -/
structure WAUser where
  id : String
  name : String
deriving DecidableEq

/-- The phoneInfo object built at lines 71-75. -/
structure PhoneInfo where
  jid : String
  name : String
  phone : String
deriving DecidableEq

/-- phoneInfo construction of the `open` branch (lines 71-75):
jid is the raw account id, phone is the id up to the first colon. -/
def openPhoneInfo (user : WAUser) : PhoneInfo :=
  { jid := user.id, name := user.name, phone := splitColonFirst user.id }

/-- Bodies posted to the four webhook endpoints. -/
inductive WebhookPayload
  | qrUpdate (sessionId : String) (qrCode : String)
  | connectionUpdate (sessionId : String) (status : String) (phoneInfo : Option PhoneInfo)
  | incomingMessage (sessionId : String) (fromJid : String) (text : String)
  | heartbeat (sessionId : String)
deriving DecidableEq

/-- One call to sendWebhook: endpoint path plus payload. -/
structure WebhookCall where
  endpoint : String
  payload : WebhookPayload
deriving DecidableEq

/-- Webhook calls made by the `open` branch (lines 77-81): a single
connection-update with status connected and the extracted phoneInfo. -/
def openBranch (sessionId : String) (user : WAUser) : List WebhookCall :=
  [⟨"/api/webhook/wa/connection-update",
    .connectionUpdate sessionId "connected" (some (openPhoneInfo user))⟩]

/-- DisconnectReason.loggedOut from the Baileys library (HTTP 401). -/
def loggedOut : Nat := 401

/-- Actions the `close` branch (lines 51-67) can take, in order. -/
inductive CloseAction
  | emitWebhook (call : WebhookCall)
  | scheduleReconnect (sessionId : String) (delayMs : Nat)
  | deleteFromRegistry (sessionId : String)
deriving DecidableEq

/-- The connection-update webhook emitted unconditionally by the close
branch (lines 56-60). -/
def disconnectedUpdate (sessionId : String) : CloseAction :=
  .emitWebhook ⟨"/api/webhook/wa/connection-update",
    .connectionUpdate sessionId "disconnected" none⟩

/-- The `close` branch of the connection.update handler (lines 51-67).
`statusCode` is lastDisconnect?.error?.output?.statusCode (none when any
link of the optional chain is absent). shouldReconnect is true exactly
when the status code differs from DisconnectReason.loggedOut. -/
def closeBranch (sessionId : String) (statusCode : Option Nat) : List CloseAction :=
  let shouldReconnect : Bool := statusCode != some loggedOut
  [disconnectedUpdate sessionId] ++
    (if shouldReconnect then [.scheduleReconnect sessionId 3000]
     else [.deleteFromRegistry sessionId])

/-- Whether a close action is a webhook emission. -/
def isWebhookEmit (a : CloseAction) : Bool :=
  match a with
  | .emitWebhook _ => true
  | _ => false

/-- An HTTP request issued by axios: URL and timeout option (0 = none set). -/
structure HttpRequest where
  url : String
  timeoutMs : Nat
deriving DecidableEq

/-- Possible outcomes of one HTTP POST. -/
inductive HttpOutcome
  | ok (status : Nat)
  | timeout
  | connRefused
deriving DecidableEq

/-- axios.post: issues exactly one request; the promise resolves for a 2xx
status and rejects for non-2xx, timeout, or connection failure. -/
def axiosPost (url : String) (timeoutMs : Nat) (outcome : HttpOutcome) :
    List HttpRequest × Except String Unit :=
  ([⟨url, timeoutMs⟩],
    match outcome with
    | .ok status => if 200 ≤ status ∧ status < 300 then .ok () else .error "bad status"
    | .timeout => .error "timeout"
    | .connRefused => .error "connection refused")

/-- sendWebhook (lines 149-157): POST LARAVEL_URL ++ endpoint with a 5000 ms
timeout, inside try/catch; a rejected promise is logged and swallowed, so
the caller always receives a normal return. -/
def sendWebhook (baseUrl endpoint : String) (outcome : HttpOutcome) :
    List HttpRequest × Except String Unit :=
  let r := axiosPost (baseUrl ++ endpoint) 5000 outcome
  (r.1,
    match r.2 with
    | .ok u => .ok u
    | .error _ => .ok ())

/-- C1 (counterexample): at account id "123@s.whatsapp.net" (no colon), the
code's split-at-colon yields the whole jid as the phone field, so the open
branch does not emit phone "123" as the claim's example states. -/
theorem open_phoneInfo_example_refuted :
    openBranch "s1" ⟨"123@s.whatsapp.net", "Alice"⟩ ≠
      [⟨"/api/webhook/wa/connection-update",
        .connectionUpdate "s1" "connected"
          (some ⟨"123@s.whatsapp.net", "Alice", "123"⟩)⟩] := by
  decide

/-- C1 (amended): the open branch emits exactly one connection-update webhook
with status connected and phoneInfo fields jid = account id, name = display
name, phone = the account id truncated at the first colon; in particular an
id "123:45@s.whatsapp.net" yields phone "123", while the colon-free
"123@s.whatsapp.net" yields phone "123@s.whatsapp.net". -/
theorem open_branch_connected_webhook (sessionId : String) (user : WAUser) :
    openBranch sessionId user =
      [⟨"/api/webhook/wa/connection-update",
        .connectionUpdate sessionId "connected"
          (some ⟨user.id, user.name, splitColonFirst user.id⟩)⟩] ∧
    splitColonFirst "123:45@s.whatsapp.net" = "123" ∧
    splitColonFirst "123@s.whatsapp.net" = "123@s.whatsapp.net" :=
  ⟨rfl, by decide, by decide⟩

/-- C5: every close event emits exactly one webhook, the disconnected
connection-update; a loggedOut (401) cause deletes the session from the
registry and schedules nothing, while every other cause (any other code, or
no code at all) schedules createSession after 3000 ms and deletes nothing. -/
theorem close_branch_spec (sessionId : String) (statusCode : Option Nat) :
    (closeBranch sessionId statusCode).filter isWebhookEmit =
      [disconnectedUpdate sessionId] ∧
    (statusCode = some loggedOut →
      closeBranch sessionId statusCode =
        [disconnectedUpdate sessionId, .deleteFromRegistry sessionId]) ∧
    (statusCode ≠ some loggedOut →
      closeBranch sessionId statusCode =
        [disconnectedUpdate sessionId, .scheduleReconnect sessionId 3000]) := by
  by_cases h : statusCode = some (401 : Nat)
  · subst h
    simp [closeBranch, disconnectedUpdate, isWebhookEmit, loggedOut]
  · simp [closeBranch, disconnectedUpdate, isWebhookEmit, loggedOut, h]

/-- C5 (witness): concrete close events, one logout-caused and one with no
disconnect error at all. -/
theorem close_branch_spec_witness :
    closeBranch "s1" (some 401) =
      [disconnectedUpdate "s1", .deleteFromRegistry "s1"] ∧
    closeBranch "s1" none =
      [disconnectedUpdate "s1", .scheduleReconnect "s1" 3000] :=
  ⟨(close_branch_spec "s1" (some 401)).2.1 rfl,
   (close_branch_spec "s1" none).2.2 (by decide)⟩

/-- C10: sendWebhook issues exactly one POST, to baseUrl ++ endpoint with a
5000 ms timeout, and returns normally for every outcome (2xx, non-2xx,
timeout, connection refused) — the error path is caught and logged, never
propagated, and there is no retry. -/
theorem sendWebhook_never_throws (baseUrl endpoint : String) (outcome : HttpOutcome) :
    (sendWebhook baseUrl endpoint outcome).1 = [⟨baseUrl ++ endpoint, 5000⟩] ∧
    (sendWebhook baseUrl endpoint outcome).2 = .ok () := by
  cases outcome with
  | ok status =>
      by_cases h : 200 ≤ status ∧ status < 300 <;>
        simp [sendWebhook, axiosPost, h]
  | timeout => simp [sendWebhook, axiosPost]
  | connRefused => simp [sendWebhook, axiosPost]

/-- An opaque handle identifying one Connection Client (makeWASocket) instance. -/
abbrev Sock := Nat

/-- The activeSessions Map (line 22), as an association list from sessionId
to socket handle. -/
abbrev Registry := List (String × Sock)

/-- JS Map.has. -/
def regHas (reg : Registry) (k : String) : Bool :=
  reg.any (fun p => p.1 == k)

/-- JS Map.set: replace in place when the key is present, append otherwise. -/
def regSet (reg : Registry) (k : String) (v : Sock) : Registry :=
  if regHas reg k then reg.map (fun p => if p.1 == k then (k, v) else p)
  else reg ++ [(k, v)]

/-- JS Map.delete. -/
def regDelete (reg : Registry) (k : String) : Registry :=
  reg.filter (fun p => p.1 != k)

/-- Number of registry entries under a key. -/
def regCount (reg : Registry) (k : String) : Nat :=
  (reg.filter (fun p => p.1 == k)).length

/-- The steps of createBotSession's try block (lines 27-97), in source
order. The first two await I/O (credential load from disk, protocol-version
fetch over the network); registration in activeSessions is the last step. -/
inductive CreateStep
  | loadCreds
  | fetchVersion
  | makeSocket
  | subscribeEvents
  | registerSession
deriving DecidableEq

/-- Order in which createBotSession performs its steps (lines 29, 32, 34,
40-94, 96). -/
def createSessionTrace : List CreateStep :=
  [.loadCreds, .fetchVersion, .makeSocket, .subscribeEvents, .registerSession]

/-- The webhook call emitted by createBotSession's catch block (lines
100-104). -/
def createFailureWebhook (sessionId : String) : WebhookCall :=
  ⟨"/api/webhook/wa/connection-update",
    .connectionUpdate sessionId "disconnected" none⟩

/-- createBotSession (lines 27-106): on the success path (failAt = none) the
socket is stored in activeSessions as the final step; when any earlier step
throws (failAt = some step), the catch block emits a disconnected
connection-update, the registry is untouched (the set at line 96 never ran),
and the error is not re-raised. Returns (registry after, webhooks emitted
by this call itself). -/
def createBotSession (reg : Registry) (sessionId : String) (sock : Sock)
    (failAt : Option CreateStep) : Registry × List WebhookCall :=
  match failAt with
  | some _ => (reg, [createFailureWebhook sessionId])
  | none => (regSet reg sessionId sock, [])

/-- An HTTP response of the control API. -/
structure ApiResponse where
  status : Nat
  message : String
deriving DecidableEq

/-- POST /bot/create handler (lines 176-191). The body's sessionId is none
when absent; the empty string is falsy in JS, so it also hits the 400
branch. Returns (registry after, webhooks emitted, response). -/
def botCreateHandler (reg : Registry) (body : Option String) (sock : Sock)
    (failAt : Option CreateStep) : Registry × List WebhookCall × ApiResponse :=
  match body with
  | none => (reg, [], ⟨400, "Session ID required"⟩)
  | some sessionId =>
    if sessionId = "" then (reg, [], ⟨400, "Session ID required"⟩)
    else if regHas reg sessionId then (reg, [], ⟨400, "Session already exists"⟩)
    else
      let r := createBotSession reg sessionId sock failAt
      (r.1, r.2, ⟨200, "Bot session creation initiated"⟩)

/-- On-disk state: the set of directories that exist. -/
structure FileSys where
  dirs : List String
deriving DecidableEq

/-- fsp.rm with recursive and force options (line 211): removes the
directory when present and succeeds silently when absent. -/
def rmRecursiveForce (fsys : FileSys) (dir : String) : FileSys × Except String Unit :=
  (⟨fsys.dirs.filter (fun d => d != dir)⟩, .ok ())

/-- sock.logout (line 203): may reject. -/
def sockLogout (logoutFails : Bool) : Except String Unit :=
  if logoutFails then .error "logout failed" else .ok ()

/-- POST /bot/destroy handler (lines 193-218). When a live entry exists,
logout is attempted and its failure caught (line 204-206) before the entry
is deleted; credential-directory removal is attempted for every sessionId;
the handler then answers 200. Returns (registry after, filesystem after,
response). -/
def botDestroyHandler (reg : Registry) (fsys : FileSys) (body : Option String)
    (logoutFails : Bool) : Registry × FileSys × ApiResponse :=
  match body with
  | none => (reg, fsys, ⟨400, "Session ID required"⟩)
  | some sessionId =>
    if sessionId = "" then (reg, fsys, ⟨400, "Session ID required"⟩)
    else
      let reg' :=
        if regHas reg sessionId then
          match sockLogout logoutFails with
          | .ok _ => regDelete reg sessionId
          | .error _ => regDelete reg sessionId
        else reg
      let fr := rmRecursiveForce fsys ("./sessions/" ++ sessionId)
      (reg', fr.1, ⟨200, "Bot session destroyed"⟩)

/-- After deleting a key, the registry no longer has it. -/
theorem regHas_regDelete (reg : Registry) (k : String) :
    regHas (regDelete reg k) k = false := by
  induction reg with
  | nil => rfl
  | cons p rest ih =>
      by_cases h : p.1 = k
      · simpa [regDelete, List.filter_cons, h] using ih
      · have hb : (p.1 == k) = false := by simp [h]
        simp only [regDelete, regHas] at ih ⊢
        simp [List.filter_cons, List.any_cons, h, hb, ih]

/-- A key with no entry contributes nothing to a filter for that key. -/
theorem filter_eq_nil_of_regHas_false (reg : Registry) (k : String)
    (h : regHas reg k = false) : reg.filter (fun p => p.1 == k) = [] := by
  induction reg with
  | nil => rfl
  | cons p rest ih =>
      rw [regHas, List.any_cons, Bool.or_eq_false_iff] at h
      have ih2 := ih (by rw [regHas]; exact h.2)
      simp [List.filter_cons, h.1, ih2]

/-- C2 (counterexample): in createBotSession the registration of the session
(activeSessions.set, line 96) comes after both awaited I/O steps (credential
load at line 29, network version fetch at line 32) — it does not precede
either, refuting registration "before any network I/O completes". -/
theorem create_registration_not_before_io :
    ¬ (createSessionTrace.indexOf CreateStep.registerSession <
        createSessionTrace.indexOf CreateStep.loadCreds) ∧
    ¬ (createSessionTrace.indexOf CreateStep.registerSession <
        createSessionTrace.indexOf CreateStep.fetchVersion) := by
  decide

/-- C2 (amended): for a sessionId not currently registered, a successful
createBotSession inserts exactly one registry entry for it, but only as the
final setup step, after the credential load and the network version fetch
(the first and second steps) have completed. -/
theorem createSession_registers_once_last (reg : Registry) (sessionId : String)
    (sock : Sock) (h : regHas reg sessionId = false) :
    regCount (createBotSession reg sessionId sock none).1 sessionId = 1 ∧
    createSessionTrace.indexOf CreateStep.registerSession = 4 ∧
    createSessionTrace.indexOf CreateStep.loadCreds = 0 ∧
    createSessionTrace.indexOf CreateStep.fetchVersion = 1 := by
  have h0 := filter_eq_nil_of_regHas_false reg sessionId h
  refine ⟨?_, by decide, by decide, by decide⟩
  simp [createBotSession, regSet, h, regCount, List.filter_append, h0]

/-- C2 (witness): creating "s1" in the empty registry. -/
theorem createSession_registers_once_last_witness :
    regCount (createBotSession [] "s1" 7 none).1 "s1" = 1 ∧
    createSessionTrace.indexOf CreateStep.registerSession = 4 ∧
    createSessionTrace.indexOf CreateStep.loadCreds = 0 ∧
    createSessionTrace.indexOf CreateStep.fetchVersion = 1 :=
  createSession_registers_once_last [] "s1" 7 rfl

/-- The logout outcome is caught and discarded: both branches of the
try/catch around sock.logout (lines 202-206) continue to the same deletion. -/
theorem logout_outcome_ignored (reg : Registry) (k : String) (lf : Bool) :
    (match sockLogout lf with
     | .ok _ => regDelete reg k
     | .error _ => regDelete reg k) = regDelete reg k := by
  cases lf <;> rfl

/-- For a non-empty sessionId the destroy handler always answers 200. -/
theorem destroy_response_ok (reg : Registry) (fsys : FileSys) (sessionId : String)
    (lf : Bool) (hne : sessionId ≠ "") :
    (botDestroyHandler reg fsys (some sessionId) lf).2.2 =
      ⟨200, "Bot session destroyed"⟩ := by
  simp [botDestroyHandler, hne, rmRecursiveForce]

/-- C7: for a provided non-empty sessionId the destroy handler answers 200
regardless of the logout outcome; any registry entry for the id is removed;
the credential directory is absent from disk afterwards whether or not the
id was registered (rm is recursive and forced, so an unknown id is no
error); and a second destroy of the same id also answers 200. -/
theorem destroy_endpoint_spec (reg : Registry) (fsys : FileSys) (sessionId : String)
    (lf lf2 : Bool) (hne : sessionId ≠ "") :
    (botDestroyHandler reg fsys (some sessionId) lf).2.2 =
      ⟨200, "Bot session destroyed"⟩ ∧
    regHas (botDestroyHandler reg fsys (some sessionId) lf).1 sessionId = false ∧
    ("./sessions/" ++ sessionId) ∉
      (botDestroyHandler reg fsys (some sessionId) lf).2.1.dirs ∧
    (botDestroyHandler
        (botDestroyHandler reg fsys (some sessionId) lf).1
        (botDestroyHandler reg fsys (some sessionId) lf).2.1
        (some sessionId) lf2).2.2 = ⟨200, "Bot session destroyed"⟩ := by
  have hmain : botDestroyHandler reg fsys (some sessionId) lf =
      ((if regHas reg sessionId then regDelete reg sessionId else reg),
       ⟨fsys.dirs.filter (fun d => d != ("./sessions/" ++ sessionId))⟩,
       ⟨200, "Bot session destroyed"⟩) := by
    simp [botDestroyHandler, hne, rmRecursiveForce, logout_outcome_ignored]
  refine ⟨destroy_response_ok reg fsys sessionId lf hne, ?_, ?_,
    destroy_response_ok _ _ sessionId lf2 hne⟩
  · rw [hmain]
    by_cases hr : regHas reg sessionId = true
    · simp [hr, regHas_regDelete]
    · simp only [Bool.not_eq_true] at hr
      simp [hr]
  · rw [hmain]
    intro hmem
    rw [List.mem_filter] at hmem
    simp at hmem

/-- C7 (witness): destroying the registered "s1" (with a failing logout),
then destroying it again. -/
theorem destroy_endpoint_spec_witness :
    (botDestroyHandler [("s1", 7)] ⟨["./sessions/s1"]⟩ (some "s1") true).2.2 =
      ⟨200, "Bot session destroyed"⟩ ∧
    regHas (botDestroyHandler [("s1", 7)] ⟨["./sessions/s1"]⟩ (some "s1") true).1
      "s1" = false ∧
    ("./sessions/" ++ "s1") ∉
      (botDestroyHandler [("s1", 7)] ⟨["./sessions/s1"]⟩ (some "s1") true).2.1.dirs ∧
    (botDestroyHandler
        (botDestroyHandler [("s1", 7)] ⟨["./sessions/s1"]⟩ (some "s1") true).1
        (botDestroyHandler [("s1", 7)] ⟨["./sessions/s1"]⟩ (some "s1") true).2.1
        (some "s1") false).2.2 = ⟨200, "Bot session destroyed"⟩ :=
  destroy_endpoint_spec [("s1", 7)] ⟨["./sessions/s1"]⟩ "s1" true false (by decide)

/-- C8: when the create endpoint is invoked with a non-empty, unregistered
sessionId and any setup step of createBotSession throws, the handler emits
exactly the disconnected connection-update webhook with null phoneInfo,
leaves the registry unchanged (the session stays absent), and still answers
200 — the error is never re-raised to the caller. -/
theorem create_endpoint_failure_spec (reg : Registry) (sessionId : String)
    (sock : Sock) (step : CreateStep) (hne : sessionId ≠ "")
    (hfree : regHas reg sessionId = false) :
    botCreateHandler reg (some sessionId) sock (some step) =
      (reg, [createFailureWebhook sessionId],
        ⟨200, "Bot session creation initiated"⟩) := by
  simp [botCreateHandler, hne, hfree, createBotSession]

/-- C8 (witness): a failing credential load for fresh "s1". -/
theorem create_endpoint_failure_spec_witness :
    botCreateHandler [] (some "s1") 7 (some CreateStep.loadCreds) =
      ([], [createFailureWebhook "s1"],
        ⟨200, "Bot session creation initiated"⟩) :=
  create_endpoint_failure_spec [] "s1" 7 CreateStep.loadCreds (by decide) rfl

/-- msg.key of a Baileys message. -/
structure MsgKey where
  fromMe : Bool
  remoteJid : String
deriving DecidableEq

/-- msg.message content: the two text carriers read at lines 111-112. -/
structure MsgContent where
  conversation : Option String
  extendedText : Option String
deriving DecidableEq

/-- One inbound message of a messages.upsert batch. -/
structure WAMessage where
  key : MsgKey
  message : Option MsgContent
deriving DecidableEq

/-- JS `a || b` for an optional string against a string default: the first
operand wins only when present and non-empty (truthy). -/
def jsOrString (a : Option String) (b : String) : String :=
  match a with
  | some s => if s = "" then b else s
  | none => b

/-- messageText (lines 111-112):
msg.message?.conversation || msg.message?.extendedTextMessage?.text || "". -/
def messageText (msg : WAMessage) : String :=
  jsOrString (msg.message.bind (fun c => c.conversation))
    (jsOrString (msg.message.bind (fun c => c.extendedText)) "")

/-- The guard at line 91: forward only when the message is not the session's
own (fromMe false) and content is present. -/
def qualifies (msg : WAMessage) : Bool :=
  !msg.key.fromMe && msg.message.isSome

/-- messages.upsert handler (lines 89-94): only m.messages[0] is examined;
it is forwarded exactly when the line-91 guard holds. Returns the list of
messages handed to forwardToLaravel. -/
def upsertForwarded (messages : List WAMessage) : List WAMessage :=
  match messages.head? with
  | none => []
  | some msg => if qualifies msg then [msg] else []

/-- JS truthiness of response.data?.reply for an optional string. -/
def truthy (o : Option String) : Bool :=
  match o with
  | some s => s != ""
  | none => false

/-- The backend's answer to the incoming-message POST. -/
structure BackendResponse where
  reply : Option String
deriving DecidableEq

/-- One sock.sendMessage call (line 127): target jid and text. -/
structure SendCall where
  jid : String
  text : String
deriving DecidableEq

/-- What forwardToLaravel produces. -/
structure ForwardResult where
  posts : List (String × WebhookPayload)
  sends : List SendCall
deriving DecidableEq

/-- forwardToLaravel (lines 108-132): POST the incoming-message payload to
the backend; when the await of that POST rejects, the catch logs and nothing
is sent back; when it resolves, a send-back happens exactly when
response.data?.reply is truthy (present and non-empty). -/
def forwardToLaravel (sessionId : String) (msg : WAMessage)
    (resp : Except String BackendResponse) : ForwardResult :=
  let sender := msg.key.remoteJid
  let post := ("/api/webhook/wa/incoming-message",
    WebhookPayload.incomingMessage sessionId sender (messageText msg))
  match resp with
  | .error _ => { posts := [post], sends := [] }
  | .ok r =>
      { posts := [post],
        sends :=
          match r.reply with
          | some reply => if reply != "" then [⟨sender, reply⟩] else []
          | none => [] }

/-- A concrete two-message batch in which both messages pass the line-91
guard. -/
def twoQualifyingBatch : List WAMessage :=
  [⟨⟨false, "a@s.whatsapp.net"⟩, some ⟨some "first", none⟩⟩,
   ⟨⟨false, "b@s.whatsapp.net"⟩, some ⟨some "second", none⟩⟩]

/-- C3 (counterexample): in a batch of two inbound messages that both pass
the guard, the second is never handed to forwardToLaravel — the handler
reads only m.messages[0], refuting "for every such message in an arriving
batch". -/
theorem upsert_batch_second_dropped :
    (∀ msg ∈ twoQualifyingBatch, qualifies msg = true) ∧
    (⟨⟨false, "b@s.whatsapp.net"⟩, some ⟨some "second", none⟩⟩ : WAMessage) ∉
      upsertForwarded twoQualifyingBatch := by
  decide

/-- C3 (amended): only the first message of an arriving batch is considered;
when it did not originate from the session's own account and has content, it
alone is forwarded, and the incoming-message payload carries the sessionId,
the sender's remoteJid, and the extracted text, where a present non-empty
simple-text (conversation) field is preferred over the formatted-text
(extendedTextMessage.text) field. -/
theorem upsert_forwards_first_spec (sessionId : String) (messages : List WAMessage)
    (msg : WAMessage) (resp : Except String BackendResponse)
    (hh : messages.head? = some msg) (hq : qualifies msg = true) :
    upsertForwarded messages = [msg] ∧
    (forwardToLaravel sessionId msg resp).posts =
      [("/api/webhook/wa/incoming-message",
        WebhookPayload.incomingMessage sessionId msg.key.remoteJid (messageText msg))] ∧
    (∀ c t, msg.message = some c → c.conversation = some t → t ≠ "" →
      messageText msg = t) ∧
    (∀ c u, msg.message = some c → (c.conversation = none ∨ c.conversation = some "") →
      c.extendedText = some u → u ≠ "" → messageText msg = u) := by
  refine ⟨?_, ?_, ?_, ?_⟩
  · rw [upsertForwarded, hh]
    simp [hq]
  · cases resp <;> rfl
  · intro c t hc ht hne
    rw [messageText, hc]
    simp [Option.bind, ht, jsOrString, hne]
  · intro c u hc hcnone hu hune
    rw [messageText, hc]
    rcases hcnone with h0 | h0 <;>
      simp [Option.bind, h0, hu, jsOrString, hune]

/-- C3 (witness): a one-element batch holding a plain-text message from
"a@s.whatsapp.net". -/
theorem upsert_forwards_first_spec_witness :
    upsertForwarded [⟨⟨false, "a@s.whatsapp.net"⟩, some ⟨some "hi", none⟩⟩] =
      [⟨⟨false, "a@s.whatsapp.net"⟩, some ⟨some "hi", none⟩⟩] ∧
    (forwardToLaravel "s1" ⟨⟨false, "a@s.whatsapp.net"⟩, some ⟨some "hi", none⟩⟩
        (.ok ⟨some "hello"⟩)).posts =
      [("/api/webhook/wa/incoming-message",
        WebhookPayload.incomingMessage "s1" "a@s.whatsapp.net"
          (messageText ⟨⟨false, "a@s.whatsapp.net"⟩, some ⟨some "hi", none⟩⟩))] ∧
    (∀ c t, (⟨⟨false, "a@s.whatsapp.net"⟩, some ⟨some "hi", none⟩⟩ : WAMessage).message =
        some c → c.conversation = some t → t ≠ "" →
      messageText ⟨⟨false, "a@s.whatsapp.net"⟩, some ⟨some "hi", none⟩⟩ = t) ∧
    (∀ c u, (⟨⟨false, "a@s.whatsapp.net"⟩, some ⟨some "hi", none⟩⟩ : WAMessage).message =
        some c → (c.conversation = none ∨ c.conversation = some "") →
      c.extendedText = some u → u ≠ "" →
      messageText ⟨⟨false, "a@s.whatsapp.net"⟩, some ⟨some "hi", none⟩⟩ = u) :=
  upsert_forwards_first_spec "s1" [⟨⟨false, "a@s.whatsapp.net"⟩, some ⟨some "hi", none⟩⟩]
    ⟨⟨false, "a@s.whatsapp.net"⟩, some ⟨some "hi", none⟩⟩ (.ok ⟨some "hello"⟩) rfl rfl

/-- C9 (counterexample): a backend response whose reply field is present but
empty produces no send-back — the code tests JS truthiness, not field
presence, refuting "if the response contains a reply field, the send
operation is invoked exactly once". -/
theorem reply_field_empty_no_send :
    (BackendResponse.mk (some "")).reply ≠ none ∧
    (forwardToLaravel "s1" ⟨⟨false, "a@s.whatsapp.net"⟩, some ⟨some "hi", none⟩⟩
        (.ok ⟨some ""⟩)).sends = [] := by
  decide

/-- C9 (amended): when the backend response carries a non-empty reply text,
sock.sendMessage is invoked exactly once, targeted at the original sender,
with that text (inbound "hi" answered by reply "hello" yields the single
send of "hello" to the sender); when the reply field is absent or empty, or
the backend call failed, no send-back occurs. -/
theorem forward_reply_send_spec (sessionId : String) (msg : WAMessage)
    (resp : Except String BackendResponse) :
    (∀ r t, resp = .ok r → r.reply = some t → t ≠ "" →
      (forwardToLaravel sessionId msg resp).sends = [⟨msg.key.remoteJid, t⟩]) ∧
    (∀ r, resp = .ok r → truthy r.reply = false →
      (forwardToLaravel sessionId msg resp).sends = []) ∧
    (∀ e, resp = .error e → (forwardToLaravel sessionId msg resp).sends = []) := by
  refine ⟨?_, ?_, ?_⟩
  · intro r t hr ht hne
    subst hr
    simp [forwardToLaravel, ht, hne]
  · intro r hr ht
    subst hr
    cases hrep : r.reply with
    | none => simp [forwardToLaravel, hrep]
    | some t =>
        rw [truthy.eq_def, hrep] at ht
        have ht2 : (t != "") = false := ht
        simp only [bne_eq_false_iff_eq] at ht2
        simp [forwardToLaravel, hrep, ht2]
  · intro e hr
    subst hr
    rfl

/-- C9 (witness): inbound "hi" from "a@s.whatsapp.net" with backend reply
"hello": exactly one send of "hello" back to the sender. -/
theorem forward_reply_send_spec_witness :
    (forwardToLaravel "s1" ⟨⟨false, "a@s.whatsapp.net"⟩, some ⟨some "hi", none⟩⟩
        (.ok ⟨some "hello"⟩)).sends = [⟨"a@s.whatsapp.net", "hello"⟩] :=
  (forward_reply_send_spec "s1" ⟨⟨false, "a@s.whatsapp.net"⟩, some ⟨some "hi", none⟩⟩
      (.ok ⟨some "hello"⟩)).1 ⟨some "hello"⟩ "hello" rfl rfl (by decide)

/-- Lifecycle state relevant to heartbeats: the registry key set (all the
interval body reads is activeSessions.has) and the live setInterval timers
created by startHeartbeat, each bound to a sessionId; one list element per
armed interval. -/
structure LMState where
  reg : List String
  timers : List String
deriving DecidableEq

/-- Map.set restricted to the key set: no duplicate keys arise. -/
def keyAdd (ks : List String) (k : String) : List String :=
  if ks.contains k then ks else ks ++ [k]

/-- Events that touch the registry or the timers. -/
inductive LMEv
  | createDone (s : String)
  | openEv (s : String)
  | closeEv (s : String) (isLoggedOut : Bool)
  | destroyEv (s : String)
  | tickEv (failed : List String)
deriving DecidableEq

/-- One interval tick of startHeartbeat (lines 135-145) for the timer bound
to a session: when the session is no longer in the registry the interval
clears itself and sends nothing; otherwise the heartbeat webhook is
attempted and — whether the attempt succeeds or the awaited call rejects
(the catch at lines 143-145 only logs) — the interval stays armed.
Returns (timer stays live, heartbeat attempted). -/
def heartbeatTick (regHasSession : Bool) (send : Except String Unit) : Bool × Bool :=
  if !regHasSession then (false, false)
  else
    match send with
    | .ok _ => (true, true)
    | .error _ => (true, true)

/-- Effect of one lifecycle event. createDone: activeSessions.set at the end
of createBotSession (line 96). openEv: startHeartbeat arms one more interval
(line 83 calling 134-147). closeEv: a logout cause deletes the registry
entry (line 66), any other cause leaves it untouched (only a reconnect is
scheduled, line 64). destroyEv: the destroy handler deletes the entry (line
207). tickEv failed: every armed interval fires once, delivery failing for
the sessions listed in failed. Returns the new state and the sessionIds for
which a heartbeat webhook was attempted. -/
def lmStep (st : LMState) (ev : LMEv) : LMState × List String :=
  match ev with
  | .createDone s => (⟨keyAdd st.reg s, st.timers⟩, [])
  | .openEv s => (⟨st.reg, st.timers ++ [s]⟩, [])
  | .closeEv s isLoggedOut =>
      if isLoggedOut then (⟨st.reg.filter (fun k => k != s), st.timers⟩, [])
      else (st, [])
  | .destroyEv s => (⟨st.reg.filter (fun k => k != s), st.timers⟩, [])
  | .tickEv failed =>
      (⟨st.reg, st.timers.filter (fun s =>
          (heartbeatTick (st.reg.contains s)
            (if failed.contains s then .error "send failed" else .ok ())).1)⟩,
       st.timers.filter (fun s =>
          (heartbeatTick (st.reg.contains s)
            (if failed.contains s then .error "send failed" else .ok ())).2))

/-- Run a list of events, collecting each event's heartbeat attempts. -/
def lmRun (st : LMState) (evs : List LMEv) : LMState × List (List String) :=
  match evs with
  | [] => (st, [])
  | ev :: rest =>
      let r := lmStep st ev
      let rr := lmRun r.1 rest
      (rr.1, r.2 :: rr.2)

/-- The reconnect scenario: create and open s1, non-logout close, the
scheduled createSession completes, the new socket opens. -/
def reconnectTrace : List LMEv :=
  [.createDone "s1", .openEv "s1", .closeEv "s1" false,
   .createDone "s1", .openEv "s1"]

/-- C4 (counterexample): across a non-logout close and reconnection the
registry entry for s1 is never removed, so the first open's interval never
observes an absent entry; the reconnected open arms another one. Two live
timers are then bound to s1 at once, and the next tick attempts two
heartbeats for it. -/
theorem reconnect_two_live_timers :
    ((lmRun ⟨[], []⟩ reconnectTrace).1.timers.filter (fun x => x == "s1")).length
      = 2 ∧
    (lmStep (lmRun ⟨[], []⟩ reconnectTrace).1 (.tickEv [])).2 = ["s1", "s1"] := by
  decide

/-- A timer whose session the registry lacks neither survives a tick nor
attempts a heartbeat on it. -/
theorem tick_drops_absent (st : LMState) (failed : List String) (s : String)
    (h : st.reg.contains s = false) :
    s ∉ (lmStep st (.tickEv failed)).1.timers ∧
    s ∉ (lmStep st (.tickEv failed)).2 := by
  have hbt : ∀ send, heartbeatTick (st.reg.contains s) send = (false, false) := by
    intro send
    rw [h]
    cases send <;> rfl
  constructor <;>
  · intro hmem
    simp only [lmStep, List.mem_filter] at hmem
    rw [hbt] at hmem
    exact absurd hmem.2 (by decide)

/-- C4 (amended): destruction is self-healing — a timer whose session is
absent from the registry cancels itself on its next tick without attempting
a heartbeat — but uniqueness fails: a non-logout reconnection keeps the
registry entry alive, so the old timer survives every tick and the
reconnected open arms a second timer for the same sessionId; after the
reconnect trace two live timers are bound to s1 at once. -/
theorem timer_per_session_spec (st : LMState) (failed : List String) (s : String)
    (h : st.reg.contains s = false) :
    s ∉ (lmStep st (.tickEv failed)).1.timers ∧
    s ∉ (lmStep st (.tickEv failed)).2 ∧
    ((lmRun ⟨[], []⟩ reconnectTrace).1.timers.filter (fun x => x == "s1")).length
      = 2 := by
  obtain ⟨h1, h2⟩ := tick_drops_absent st failed s h
  exact ⟨h1, h2, by decide⟩

/-- C4 (witness): a state in which s1 was just destroyed (registry empty)
while its timer is still armed: the next tick cancels it silently. -/
theorem timer_per_session_spec_witness :
    "s1" ∉ (lmStep ⟨[], ["s1"]⟩ (.tickEv [])).1.timers ∧
    "s1" ∉ (lmStep ⟨[], ["s1"]⟩ (.tickEv [])).2 ∧
    ((lmRun ⟨[], []⟩ reconnectTrace).1.timers.filter (fun x => x == "s1")).length
      = 2 :=
  timer_per_session_spec ⟨[], ["s1"]⟩ [] "s1" rfl

/-- Destroy s1, then a fresh createSession completes before the stale
timer's next tick; two ticks follow. No open event occurs. -/
def destroyRecreateTrace : List LMEv :=
  [.destroyEv "s1", .createDone "s1", .tickEv [], .tickEv []]

/-- C6 (counterexample): starting from an open s1 with one live timer,
destroy removes the registry entry, but a createSession completing before
the timer's next tick re-inserts the key; the stale timer then finds the
key present and attempts heartbeats at both following ticks — the second
one more than one tick interval after the removal — although no open event
occurs anywhere in the trace. -/
theorem stale_timer_survives_recreate :
    (∀ ev ∈ destroyRecreateTrace, ev ≠ .openEv "s1") ∧
    (lmRun ⟨["s1"], ["s1"]⟩ destroyRecreateTrace).2 = [[], [], ["s1"], ["s1"]] := by
  decide

/-- Bool contains is false exactly when the element is absent. -/
theorem contains_false_iff (l : List String) (a : String) :
    l.contains a = false ↔ a ∉ l := by
  rw [← Bool.not_eq_true]
  exact not_congr List.elem_iff

/-- Filtering cannot introduce an absent element. -/
theorem not_mem_filter_of_not_mem {l : List String} {p : String → Bool} {a : String}
    (h : a ∉ l) : a ∉ l.filter p :=
  fun hm => h (List.mem_filter.mp hm).1

/-- A session absent from the registry stays absent across every event other
than a completed createSession for it. -/
theorem reg_stays_absent (st : LMState) (ev : LMEv) (s : String)
    (h : st.reg.contains s = false) (hne : ev ≠ .createDone s) :
    (lmStep st ev).1.reg.contains s = false := by
  have hmem : s ∉ st.reg := (contains_false_iff _ _).mp h
  cases ev with
  | createDone s2 =>
      have hs : s ≠ s2 := by
        intro he
        exact hne (by rw [he])
      simp only [lmStep]
      rw [contains_false_iff]
      by_cases hc : s2 ∈ st.reg
      · simp [keyAdd, hc, hmem]
      · simp [keyAdd, hc, List.mem_append, hmem, hs]
  | openEv s2 => simpa [lmStep] using h
  | closeEv s2 lo =>
      cases lo
      · simpa [lmStep] using h
      · simp only [lmStep]
        rw [contains_false_iff]
        exact not_mem_filter_of_not_mem hmem
  | destroyEv s2 =>
      simp only [lmStep]
      rw [contains_false_iff]
      exact not_mem_filter_of_not_mem hmem
  | tickEv failed => simpa [lmStep] using h

/-- As long as no createSession completes for a removed session, no later
event makes its stale timers attempt a heartbeat. -/
theorem no_heartbeat_after_removal (evs : List LMEv) : ∀ (st : LMState) (s : String),
    st.reg.contains s = false →
    (∀ ev ∈ evs, ev ≠ .createDone s) →
    ∀ hb ∈ (lmRun st evs).2, s ∉ hb := by
  induction evs with
  | nil =>
      intro st s _ _ hb hmem
      simp [lmRun] at hmem
  | cons ev rest ih =>
      intro st s hreg hno hb hmem
      simp only [lmRun, List.mem_cons] at hmem
      rcases hmem with rfl | hmem
      · cases ev with
        | tickEv failed => exact (tick_drops_absent st failed s hreg).2
        | createDone s2 => simp [lmStep]
        | openEv s2 => simp [lmStep]
        | closeEv s2 lo => cases lo <;> simp [lmStep]
        | destroyEv s2 => simp [lmStep]
      · exact ih (lmStep st ev).1 s
          (reg_stays_absent st ev s hreg (hno ev (List.mem_cons_self ev rest)))
          (fun e he => hno e (List.mem_cons_of_mem _ he)) hb hmem

/-- C6 (amended): after a session is removed from the registry, provided no
createSession completes for it afterwards (which would re-insert the key
before the stale timer polls), no heartbeat for it is ever attempted again —
its timer finds the key absent on its very next tick and cancels itself; and
a heartbeat-delivery failure never cancels a timer: after any tick, a timer
is armed exactly when its session was in the registry, independent of the
send outcome. -/
theorem heartbeat_stop_spec (st : LMState) (evs : List LMEv) (s : String)
    (hreg : st.reg.contains s = false)
    (hno : ∀ ev ∈ evs, ev ≠ .createDone s) :
    (∀ hb ∈ (lmRun st evs).2, s ∉ hb) ∧
    (∀ regHasSession send, (heartbeatTick regHasSession send).1 = regHasSession) := by
  refine ⟨no_heartbeat_after_removal evs st s hreg hno, ?_⟩
  intro b send
  cases b
  · cases send <;> rfl
  · cases send <;> rfl

/-- C6 (witness): s1 just removed while its timer is still armed; two ticks
pass and no heartbeat for s1 is attempted. -/
theorem heartbeat_stop_spec_witness :
    (∀ hb ∈ (lmRun ⟨[], ["s1"]⟩ [.tickEv [], .tickEv []]).2, "s1" ∉ hb) ∧
    (∀ regHasSession send, (heartbeatTick regHasSession send).1 = regHasSession) :=
  heartbeat_stop_spec ⟨[], ["s1"]⟩ [.tickEv [], .tickEv []] "s1" rfl (by decide)
